import Mathlib

/-
Verification of the ipc-agent JSON-RPC core against its specification.

The development shallowly embeds the relevant Rust code:
  - src/server/handlers/mod.rs        (dispatcher, f64_to_token_amount)
  - src/server/handlers/manager/join.rs (JoinSubnetHandler)
  - src/server/handlers/manager/kill.rs (KillSubnetHandler)
Parts of the repository that are not present under src/ (the SubnetID type,
the SubnetManagerPool, check_subnet/parse_from, the json_rpc_methods name
constants) are modelled from the specification and are marked as such in
their doc comments.
-/

set_option maxRecDepth 100000

namespace IpcAgent

deriving instance DecidableEq for Except

/-- Error kinds of spec section 7. The Rust code uses untyped anyhow errors;
each constructor records which anyhow error message (or serde error) of the
source it stands for: `methodNotSupported` is `anyhow!("method not supported")`,
`noParentFound` is `anyhow!("no parent found")`, `parentSubnetNotFound` is
`anyhow!("target parent subnet not found")`, `invalidParams` is a propagated
serde_json decode error, and the remaining constructors stand for errors
produced behind the capability boundaries (subnet/address parsing,
check_subnet, parse_from, backend calls). -/
inductive Err where
  | parseError (msg : String)
  | methodNotSupported
  | invalidParams (msg : String)
  | noParentFound
  | parentSubnetNotFound
  | subnetMismatch
  | noDefaultAccount
  | addrParseError (msg : String)
  | backendErr (msg : String)
deriving DecidableEq, Repr

/-! ## A model of IEEE-754 binary64 (Rust f64)

`F64.finite m e` denotes the real value `m * 2^e`. The representation is not
required to be normalised; all operations are defined on the denoted value.
Multiplication rounds to nearest, ties to even, exactly as IEEE-754 binary64
does, overflowing to infinity; this is the semantics of Rust `*` on f64. -/

/-- Model of a Rust f64 value: NaN, signed infinity, or a finite dyadic
rational `m * 2^e`. -/
inductive F64 where
  | nan
  | inf (neg : Bool)
  | finite (m : Int) (e : Int)
deriving DecidableEq, Repr

/-- Fuel-driven bit-length helper (structural recursion so that the kernel
can evaluate it). -/
def bitlenAux : Nat → Nat → Nat
  | 0, _ => 0
  | _ + 1, 0 => 0
  | fuel + 1, n + 1 => bitlenAux fuel ((n + 1) / 2) + 1

/-- Number of binary digits of `n` (0 for 0); `2^(bitlen n - 1) ≤ n < 2^(bitlen n)`
for positive `n`. -/
def bitlen (n : Nat) : Nat := bitlenAux n n

/-- Decide `2^k ≤ n / d` (`d > 0`) for an integer exponent `k`. -/
def pow2le (k : Int) (n d : Nat) : Bool :=
  if 0 ≤ k then 2 ^ k.toNat * d ≤ n else d ≤ n * 2 ^ (-k).toNat

/-- Round the positive rational `n / d` (`n, d > 0`) to the nearest binary64
value, ties to even, returning positive infinity on overflow and a subnormal
(ulp `2^(-1074)`) result below the normal range. -/
def roundPos (n d : Nat) : F64 :=
  let c0 : Int := (bitlen n : Int) - (bitlen d : Int) - 1
  let c : Int := if pow2le (c0 + 1) n d then c0 + 1 else c0
  let E : Int := max (c - 52) (-1074)
  let N : Nat := if 0 ≤ E then n else n * 2 ^ (-E).toNat
  let D : Nat := if 0 ≤ E then d * 2 ^ E.toNat else d
  let M0 : Nat := N / D
  let r : Nat := N % D
  let M1 : Nat := if D < 2 * r ∨ (2 * r = D ∧ M0 % 2 = 1) then M0 + 1 else M0
  let M : Nat := if M1 = 2 ^ 53 then 2 ^ 52 else M1
  let E2 : Int := if M1 = 2 ^ 53 then E + 1 else E
  if 972 ≤ E2 then F64.inf false else F64.finite (M : Int) E2

/-- Transfer a sign onto a rounded magnitude. -/
def applySign (s : Bool) : F64 → F64
  | .nan => .nan
  | .inf _ => .inf s
  | .finite m e => .finite (if s then -m else m) e

/-- Round the dyadic rational `m * 2^e` to the nearest binary64 value. -/
def roundDyadic (m : Int) (e : Int) : F64 :=
  if m = 0 then .finite 0 0
  else
    let s : Bool := if m < 0 then true else false
    let n : Nat := m.natAbs
    if 0 ≤ e then applySign s (roundPos (n * 2 ^ e.toNat) 1)
    else applySign s (roundPos n (2 ^ (-e).toNat))

/-- IEEE-754 binary64 multiplication (Rust `*` on f64). -/
def F64.mul : F64 → F64 → F64
  | .nan, _ => .nan
  | _, .nan => .nan
  | .inf s, .inf t => .inf (xor s t)
  | .inf s, .finite m _ => if m = 0 then .nan else if m < 0 then .inf (!s) else .inf s
  | .finite m _, .inf t => if m = 0 then .nan else if m < 0 then .inf (!t) else .inf t
  | .finite m1 e1, .finite m2 e2 => roundDyadic (m1 * m2) (e1 + e2)

/-- Integer part (truncation toward zero) of the value `m * 2^e`.
`Int.tdiv` truncates toward zero, matching Rust semantics. -/
def intPartI (m e : Int) : Int :=
  if 0 ≤ e then m * 2 ^ e.toNat else Int.tdiv m (2 ^ (-e).toNat)

/-- Model of `f64::trunc`: drop the fractional part, toward zero. -/
def F64.trunc : F64 → F64
  | .nan => .nan
  | .inf s => .inf s
  | .finite m e => .finite (intPartI m e) 0

/-- Model of the Rust `as u128` cast on an f64: truncate toward zero and
saturate to `[0, 2^128 - 1]`; NaN casts to 0. -/
def castU128 : F64 → Nat
  | .nan => 0
  | .inf s => if s then 0 else 2 ^ 128 - 1
  | .finite m e =>
    let v : Int := intPartI m e
    if v < 0 then 0 else if (2 ^ 128 : Int) ≤ v then 2 ^ 128 - 1 else v.toNat

/-- The nonnegative integer part of a finite double (`none` for NaN,
infinities and negative integer parts). -/
def intPartNat : F64 → Option Nat
  | .finite m e => let v := intPartI m e; if 0 ≤ v then some v.toNat else none
  | _ => none

/-- fvm_shared TokenAmount: an integer number of atto (10^-18) units. -/
structure TokenAmount where
  atto : Int
deriving DecidableEq, Repr

/-- `TokenAmount::from_nano`: nano units are 10^9 atto units. -/
def TokenAmount.from_nano (nano : Int) : TokenAmount := ⟨nano * 10 ^ 9⟩

/-- We only support up to 9 decimal digits for transaction
(src/server/handlers/mod.rs line 55). -/
def FIL_AMOUNT_NANO_DIGITS : Nat := 9

/-- The f64 produced by `10u64.pow(FIL_AMOUNT_NANO_DIGITS) as f64`
(the conversion is exact: 10^9 < 2^53). -/
def nanoScaleF64 : F64 := roundDyadic ((10 : Int) ^ FIL_AMOUNT_NANO_DIGITS) 0

/-- Model of `f64_to_token_amount` (src/server/handlers/mod.rs lines 195-199):
`let nano = f64::trunc(f * (10u64.pow(FIL_AMOUNT_NANO_DIGITS) as f64));
Ok(TokenAmount::from_nano(nano as u128))`. Note that the function has no
error path at all: every input, including NaN, infinities and negatives,
yields `Ok`. -/
def f64_to_token_amount (f : F64) : Except Err TokenAmount :=
  Except.ok (TokenAmount.from_nano (castU128 (F64.trunc (F64.mul f nanoScaleF64))))

/-- The token amount `f64_to_token_amount` actually produces — the function
is total, so this is its whole behaviour. -/
def tokenOf (f : F64) : TokenAmount :=
  TokenAmount.from_nano (castU128 (F64.trunc (F64.mul f nanoScaleF64)))

/-- The binary64 value denoted by the decimal literal `n / 10^k`
(round to nearest, ties to even — how Rust reads f64 literals). -/
def f64OfDecimal (n : Nat) (k : Nat) : F64 :=
  if n = 0 then .finite 0 0 else roundPos n (10 ^ k)

/-- The f64 literal `1000000.1`. -/
def lit1000000p1 : F64 := f64OfDecimal 10000001 1

/-- The f64 literal `0.0000000009`. -/
def lit9em10 : F64 := f64OfDecimal 9 10

/-! ## SubnetID, configuration entries, connections, pool -/

/-- Modelled from the spec: `SubnetID` (spec sections 3 and 4.1) — the crate
`ipc_sdk::subnet_id::SubnetID` is not under src/. An ordered sequence of
chain identifiers describing the path from the root chain to a subnet;
segments are kept as character lists so that every operation evaluates in
the kernel. -/
structure SubnetID where
  path : List (List Char)
deriving DecidableEq, Repr

/-- Split a character list on the separator character. -/
def splitSeg (sep : Char) (acc : List Char) : List Char → List (List Char)
  | [] => [acc.reverse]
  | c :: cs => if c = sep then acc.reverse :: splitSeg sep [] cs
               else splitSeg sep (c :: acc) cs

/-- Modelled from the spec: `SubnetID::from_str` (spec section 4.1) — parse
the canonical path string: a leading separator followed by one or more
nonempty chain-identifier segments; anything else is a parse error. -/
def SubnetID.from_str (s : String) : Except Err SubnetID :=
  match s.data with
  | [] => .error (.parseError "empty subnet id")
  | c :: rest =>
    if c = '/' then
      let segs := splitSeg '/' [] rest
      if segs.any (fun seg => seg = []) then .error (.parseError "empty segment")
      else .ok ⟨segs⟩
    else .error (.parseError "missing leading separator")

/-- Modelled from the spec: `SubnetID::parent` (spec section 4.1) — `none`
for a root (path length 1), otherwise the path with its last segment
dropped. -/
def SubnetID.parent (id : SubnetID) : Option SubnetID :=
  match id.path with
  | [] => none
  | [_] => none
  | _ => some ⟨id.path.dropLast⟩

/-- The two execution-layer backend variants (spec section 3). -/
inductive Backend where
  | fvm
  | evm
deriving DecidableEq, Repr

/-- Subnet configuration entry (spec section 3), reduced to the fields the
embedded handlers inspect; backend-specific detail stays behind the
capability functions of `Env`. -/
structure Subnet where
  id : SubnetID
  backend : Backend
deriving DecidableEq, Repr

/-- A live connection: owns the configuration entry it was built from and
(behind `Env`) a `SubnetManager` client. `Connection::subnet()` exposes the
entry for re-validation. -/
structure Connection where
  subnet : Subnet
deriving DecidableEq, Repr

/-- Modelled from the spec: `SubnetManagerPool::get` (spec section 4.4) —
the pool source is not under src/. Returns the cached connection if
present; otherwise looks the subnet up in the current configuration
snapshot, returning `none` if it is unknown, and a connection built from
its entry if it is known. (The insertion of the freshly built connection
is invisible to a single call and is studied separately in the
interleaving model below.) -/
def poolGet (cache : List (SubnetID × Connection))
    (config : List (SubnetID × Subnet)) (k : SubnetID) : Option Connection :=
  match List.lookup k cache with
  | some conn => some conn
  | none =>
    match List.lookup k config with
    | some entry => some ⟨entry⟩
    | none => none

/-- An address of the underlying chain; kept opaque (fvm_shared is outside
the core). -/
structure Address where
  raw : String
deriving DecidableEq, Repr

/-- The environment a handler runs against: the pool state and the
capability functions the handler calls but whose implementations live
outside src/ (check_subnet, parse_from, Address::from_str, and the
`SubnetManager` operations of the connection). -/
structure Env where
  cache : List (SubnetID × Connection)
  config : List (SubnetID × Subnet)
  check_subnet : Subnet → Except Err Unit
  parse_from : Subnet → Option String → Except Err Address
  addressFromStr : String → Except Err Address
  managerJoin : Connection → SubnetID → Address → TokenAmount → String → Address →
    Except Err Unit
  managerKill : Connection → SubnetID → Address → Except Err Unit

/-- Observable capability calls of a handler run, in invocation order.
The trace is what makes call ordering (and the absence of a call) a
provable statement. -/
inductive Ev where
  | poolGet (k : SubnetID)
  | convertAmount (f : F64)
  | checkSubnet (s : Subnet)
  | managerJoin (subnet : SubnetID) (fromAddr : Address) (collateral : TokenAmount)
      (validatorNetAddr : String) (worker : Address)
  | managerKill (subnet : SubnetID) (fromAddr : Address)
deriving DecidableEq, Repr

/-- `JoinSubnetParams` (src/server/handlers/manager/join.rs lines 16-24).
The Rust field `from` is a Lean keyword, hence the quoted name. -/
structure JoinSubnetParams where
  subnet : String
  «from» : Option String
  collateral : F64
  validator_net_addr : String
  worker_addr : Option String
deriving DecidableEq, Repr

/-- `KillSubnetParams` (src/server/handlers/manager/kill.rs lines 15-19). -/
structure KillSubnetParams where
  subnet : String
  «from» : Option String
deriving DecidableEq, Repr

/-- `JoinSubnetHandler::handle` (src/server/handlers/manager/join.rs lines
42-63), step by step in source order: parse the subnet id, take its parent
(`anyhow!("no parent found")` if none), get the parent connection from the
pool (`anyhow!("target parent subnet not found")` if absent), convert the
collateral, re-validate the connection with `check_subnet`, resolve `from`
with `parse_from`, resolve the worker address (defaulting to `from`), and
call `manager().join_subnet`. Returns the result together with the trace
of observable capability calls. -/
def joinHandle (env : Env) (request : JoinSubnetParams) :
    Except Err Unit × List Ev :=
  match SubnetID.from_str request.subnet with
  | .error e => (.error e, [])
  | .ok subnet =>
    match subnet.parent with
    | none => (.error .noParentFound, [])
    | some parent =>
      match poolGet env.cache env.config parent with
      | none => (.error .parentSubnetNotFound, [.poolGet parent])
      | some conn =>
        match f64_to_token_amount request.collateral with
        | .error e => (.error e, [.poolGet parent, .convertAmount request.collateral])
        | .ok collateral =>
          let subnet_config := conn.subnet
          match env.check_subnet subnet_config with
          | .error e =>
            (.error e,
             [.poolGet parent, .convertAmount request.collateral,
              .checkSubnet subnet_config])
          | .ok _ =>
            match env.parse_from subnet_config request.«from» with
            | .error e =>
              (.error e,
               [.poolGet parent, .convertAmount request.collateral,
                .checkSubnet subnet_config])
            | .ok fromAddr =>
              match request.worker_addr with
              | none =>
                (env.managerJoin conn subnet fromAddr collateral
                   request.validator_net_addr fromAddr,
                 [.poolGet parent, .convertAmount request.collateral,
                  .checkSubnet subnet_config,
                  .managerJoin subnet fromAddr collateral
                    request.validator_net_addr fromAddr])
              | some addr =>
                match env.addressFromStr addr with
                | .error e =>
                  (.error e,
                   [.poolGet parent, .convertAmount request.collateral,
                    .checkSubnet subnet_config])
                | .ok worker =>
                  (env.managerJoin conn subnet fromAddr collateral
                     request.validator_net_addr worker,
                   [.poolGet parent, .convertAmount request.collateral,
                    .checkSubnet subnet_config,
                    .managerJoin subnet fromAddr collateral
                      request.validator_net_addr worker])

/-- `KillSubnetHandler::handle` (src/server/handlers/manager/kill.rs lines
37-51): parse the subnet id, take its parent, get the parent connection,
re-validate it with `check_subnet`, resolve `from`, and call
`manager().kill_subnet`. -/
def killHandle (env : Env) (request : KillSubnetParams) :
    Except Err Unit × List Ev :=
  match SubnetID.from_str request.subnet with
  | .error e => (.error e, [])
  | .ok subnet =>
    match subnet.parent with
    | none => (.error .noParentFound, [])
    | some parent =>
      match poolGet env.cache env.config parent with
      | none => (.error .parentSubnetNotFound, [.poolGet parent])
      | some conn =>
        let subnet_config := conn.subnet
        match env.check_subnet subnet_config with
        | .error e => (.error e, [.poolGet parent, .checkSubnet subnet_config])
        | .ok _ =>
          match env.parse_from subnet_config request.«from» with
          | .error e => (.error e, [.poolGet parent, .checkSubnet subnet_config])
          | .ok fromAddr =>
            (env.managerKill conn subnet fromAddr,
             [.poolGet parent, .checkSubnet subnet_config,
              .managerKill subnet fromAddr])

/-! ## Method registry / dispatcher -/

/-- A serde_json::Value. Numbers are carried as their f64 reading (the only
use the embedded handlers make of them). -/
inductive Json where
  | null
  | bool (b : Bool)
  | num (f : F64)
  | str (s : String)
  | arr (xs : List Json)
  | obj (fields : List (String × Json))

/-- Field lookup in a JSON object (first occurrence, as serde does). -/
def Json.getField (fields : List (String × Json)) (k : String) : Option Json :=
  List.lookup k fields

/-- Decode a required string field. -/
def Json.reqString (fields : List (String × Json)) (k : String) :
    Except String String :=
  match Json.getField fields k with
  | some (.str s) => .ok s
  | some _ => .error ("invalid type for field " ++ k)
  | none => .error ("missing field " ++ k)

/-- Decode a required f64 field. -/
def Json.reqNum (fields : List (String × Json)) (k : String) :
    Except String F64 :=
  match Json.getField fields k with
  | some (.num f) => .ok f
  | some _ => .error ("invalid type for field " ++ k)
  | none => .error ("missing field " ++ k)

/-- Decode an `Option<String>` field: serde treats a missing field or an
explicit null as `None`. -/
def Json.optString (fields : List (String × Json)) (k : String) :
    Except String (Option String) :=
  match Json.getField fields k with
  | none => .ok none
  | some .null => .ok none
  | some (.str s) => .ok (some s)
  | some _ => .error ("invalid type for field " ++ k)

/-- serde_json::from_value for `JoinSubnetParams`. -/
def JoinSubnetParams.decode (j : Json) : Except String JoinSubnetParams :=
  match j with
  | .obj fields => do
    let subnet ← Json.reqString fields "subnet"
    let fromField ← Json.optString fields "from"
    let collateral ← Json.reqNum fields "collateral"
    let validator_net_addr ← Json.reqString fields "validator_net_addr"
    let worker_addr ← Json.optString fields "worker_addr"
    .ok ⟨subnet, fromField, collateral, validator_net_addr, worker_addr⟩
  | _ => .error "invalid type: expected a map"

/-- serde_json::from_value for `KillSubnetParams`. -/
def KillSubnetParams.decode (j : Json) : Except String KillSubnetParams :=
  match j with
  | .obj fields => do
    let subnet ← Json.reqString fields "subnet"
    let fromField ← Json.optString fields "from"
    .ok ⟨subnet, fromField⟩
  | _ => .error "invalid type: expected a map"

/-- A type-erased registry entry: a handler together with its serde decode
of the request type and serde encode of the response type (spec section
4.5; the blanket `HandlerWrapper` impl of src/server/handlers/mod.rs lines
67-74 builds exactly this data for every `JsonRPCRequestHandler`). -/
structure RpcHandler where
  Req : Type
  Resp : Type
  decode : Json → Except String Req
  handle : Req → Except Err Resp
  encode : Resp → Json

/-- `HandlerWrapper::handle` (src/server/handlers/mod.rs lines 67-74):
`let p = serde_json::from_value(params)?; let r = self.handle(p).await?;
Ok(serde_json::to_value(r)?)`. A serde decode failure propagates as the
invalid-params error; a handler failure propagates unchanged. -/
def HandlerWrapper.handle (h : RpcHandler) (params : Json) : Except Err Json :=
  match h.decode params with
  | .error e => .error (.invalidParams e)
  | .ok p =>
    match h.handle p with
    | .error e => .error e
    | .ok r => .ok (h.encode r)

/-- Modelled from the spec: the `json_rpc_methods` name constants live in
src/config (not under src/); the names follow the method table of spec
section 6. Their concrete spellings are irrelevant to the claims — only
their distinctness is used. -/
def RELOAD_CONFIG : String := "reload_config"

/-- Modelled from the spec: method name constant (spec section 6). -/
def CREATE_SUBNET : String := "create_subnet"

/-- Modelled from the spec: method name constant (spec section 6). -/
def LEAVE_SUBNET : String := "leave_subnet"

/-- Modelled from the spec: method name constant (spec section 6). -/
def KILL_SUBNET : String := "kill_subnet"

/-- Modelled from the spec: method name constant (spec section 6). -/
def JOIN_SUBNET : String := "join_subnet"

/-- Modelled from the spec: method name constant (src registers an
`RPCSubnetHandler` under it). -/
def RPC_SUBNET : String := "rpc_subnet"

/-- Modelled from the spec: method name constant (spec section 6). -/
def FUND : String := "fund"

/-- Modelled from the spec: method name constant (spec section 6). -/
def RELEASE : String := "release"

/-- Modelled from the spec: method name constant (spec section 6). -/
def PROPAGATE : String := "propagate"

/-- Modelled from the spec: method name constant (spec section 6). -/
def SEND_CROSS_MSG : String := "send_cross_msg"

/-- Modelled from the spec: method name constant (spec section 6). -/
def SEND_VALUE : String := "send_value"

/-- Modelled from the spec: method name constant (spec section 6). -/
def WALLET_NEW : String := "wallet_new"

/-- Modelled from the spec: method name constant (spec section 6). -/
def WALLET_REMOVE : String := "wallet_remove"

/-- Modelled from the spec: method name constant (spec section 6). -/
def WALLET_IMPORT : String := "wallet_import"

/-- Modelled from the spec: method name constant (spec section 6). -/
def WALLET_EXPORT : String := "wallet_export"

/-- Modelled from the spec: method name constant (spec section 6). -/
def WALLET_BALANCES : String := "wallet_balances"

/-- Modelled from the spec: method name constant (spec section 6). -/
def SET_VALIDATOR_NET_ADDR : String := "set_validator_net_addr"

/-- Modelled from the spec: method name constant (src registers a
`ListSubnetsHandler` under it). -/
def LIST_CHILD_SUBNETS : String := "list_child_subnets"

/-- Modelled from the spec: method name constant (spec section 6). -/
def LIST_BOTTOMUP_CHECKPOINTS : String := "list_bottomup_checkpoints"

/-- Modelled from the spec: method name constant (spec section 6). -/
def LAST_TOPDOWN_EXECUTED : String := "last_topdown_executed"

/-- Modelled from the spec: method name constant (spec section 6). -/
def QUERY_VALIDATOR_SET : String := "query_validator_set"

/-- The join handler as a registry entry: decode `JoinSubnetParams`, run
`JoinSubnetHandler::handle`, encode the `()` response as JSON null. -/
def joinRpc (env : Env) : RpcHandler :=
  ⟨JoinSubnetParams, Unit, JoinSubnetParams.decode,
   fun request => (joinHandle env request).1, fun _ => Json.null⟩

/-- The kill handler as a registry entry. -/
def killRpc (env : Env) : RpcHandler :=
  ⟨KillSubnetParams, Unit, KillSubnetParams.decode,
   fun request => (killHandle env request).1, fun _ => Json.null⟩

/-- The handlers whose implementations are not under src/ are supplied
abstractly; `Handlers.new` only decides which of them end up in the
registry and under which name. -/
structure HandlersEnv where
  reloadConfigH : RpcHandler
  createH : RpcHandler
  leaveH : RpcHandler
  rpcH : RpcHandler
  fundH : RpcHandler
  releaseH : RpcHandler
  propagateH : RpcHandler
  sendCrossH : RpcHandler
  sendValueH : RpcHandler
  walletNewH : RpcHandler
  walletRemoveH : RpcHandler
  walletImportH : RpcHandler
  walletExportH : RpcHandler
  walletBalancesH : RpcHandler
  setValidatorNetAddrH : RpcHandler
  listSubnetsH : RpcHandler
  listCheckpointsH : RpcHandler
  lastTopdownH : RpcHandler
  queryValidatorSetH : RpcHandler

/-- `Handlers::new` (src/server/handlers/mod.rs lines 86-184): the registry
entries in source insertion order. The constructed `WalletExportHandler`
(`henv.walletExportH`, bound to `_h` in the source at lines 150-153) is
deliberately NOT inserted: "FIXME: For security reasons currently not
exposing the ability to export wallet remotely through the RPC API, only
directly through the CLI" (lines 154-157). -/
def Handlers.new (henv : HandlersEnv) (env : Env) : List (String × RpcHandler) :=
  let _h := henv.walletExportH
  [(RELOAD_CONFIG, henv.reloadConfigH),
   (CREATE_SUBNET, henv.createH),
   (LEAVE_SUBNET, henv.leaveH),
   (KILL_SUBNET, killRpc env),
   (JOIN_SUBNET, joinRpc env),
   (RPC_SUBNET, henv.rpcH),
   (FUND, henv.fundH),
   (RELEASE, henv.releaseH),
   (PROPAGATE, henv.propagateH),
   (SEND_CROSS_MSG, henv.sendCrossH),
   (SEND_VALUE, henv.sendValueH),
   (WALLET_NEW, henv.walletNewH),
   (WALLET_REMOVE, henv.walletRemoveH),
   (WALLET_IMPORT, henv.walletImportH),
   (WALLET_BALANCES, henv.walletBalancesH),
   (SET_VALIDATOR_NET_ADDR, henv.setValidatorNetAddrH),
   (LIST_CHILD_SUBNETS, henv.listSubnetsH),
   (LIST_BOTTOMUP_CHECKPOINTS, henv.listCheckpointsH),
   (LAST_TOPDOWN_EXECUTED, henv.lastTopdownH),
   (QUERY_VALIDATOR_SET, henv.queryValidatorSetH)]

/-- `Handlers::handle` (src/server/handlers/mod.rs lines 186-192): look the
method up in the registry (the HashMap is modelled as an association list
with distinct keys); absent methods fail with
`anyhow!("method not supported")`. -/
def Handlers.handle (handlers : List (String × RpcHandler)) (method : String)
    (params : Json) : Except Err Json :=
  match List.lookup method handlers with
  | some wrapper => HandlerWrapper.handle wrapper params
  | none => .error .methodNotSupported

/-! ## Interleaving model of race-free pool construction (spec sections 4.4, 5)

The `SubnetManagerPool` implementation is not under src/; the model below is
the construction discipline the spec mandates: a fast-path cache read, then
a per-key mutual-exclusion guard scoped to construction, with a re-check of
the cache after acquiring the guard. Two threads run `get` for the same
previously-unseen key; every interleaving of their atomic steps is
explored. Connection instances are identified by the value of the
construction counter at their creation, so "both callers observe the same
cached instance" and "construction ran at most once" are statements about
the final state. -/

/-- Program counter of one thread running the guarded `get`. -/
inductive C9PC where
  | start
  | wantLock
  | locked
  | finished
deriving DecidableEq, Repr

/-- Modelled from the spec: shared state of the two-thread pool-construction
experiment — the per-key guard, the cache slot for the key, the number of
constructions performed so far, and each thread's control point and
result. -/
structure C9State where
  lockHeld : Option Bool
  cache : Option Nat
  built : Nat
  pc0 : C9PC
  pc1 : C9PC
  res0 : Option Nat
  res1 : Option Nat
deriving DecidableEq, Repr

/-- The control point of thread `t`. -/
def C9State.pc (s : C9State) (t : Bool) : C9PC := if t then s.pc1 else s.pc0

/-- Set the control point of thread `t`. -/
def C9State.withPc (s : C9State) (t : Bool) (p : C9PC) : C9State :=
  if t then { s with pc1 := p } else { s with pc0 := p }

/-- Set the result of thread `t`. -/
def C9State.withRes (s : C9State) (t : Bool) (r : Option Nat) : C9State :=
  if t then { s with res1 := r } else { s with res0 := r }

/-- Modelled from the spec: one atomic step of thread `t` in the guarded
`get` — fast-path cache read; lock acquisition (blocking while the other
thread holds the guard); and, under the guard, the re-check followed by
construct-insert-release on a miss. `none` means the thread cannot move
(blocked or finished). -/
def c9step (s : C9State) (t : Bool) : Option C9State :=
  match s.pc t with
  | .start =>
    match s.cache with
    | some c => some ((s.withPc t .finished).withRes t (some c))
    | none => some (s.withPc t .wantLock)
  | .wantLock =>
    match s.lockHeld with
    | none => some { s.withPc t .locked with lockHeld := some t }
    | some _ => none
  | .locked =>
    match s.cache with
    | some c =>
      some { (s.withPc t .finished).withRes t (some c) with lockHeld := none }
    | none =>
      some { (s.withPc t .finished).withRes t (some s.built) with
             lockHeld := none, cache := some s.built, built := s.built + 1 }
  | .finished => none

/-- Both threads start at the fast path with an empty cache and no
construction performed. -/
def c9init : C9State := ⟨none, none, 0, .start, .start, none, none⟩

/-- All successor states of `s` (either thread moves). -/
def c9succs (s : C9State) : List C9State :=
  (c9step s false).toList ++ (c9step s true).toList

/-- Insert a state into a list if not already present. -/
def c9insert (s : C9State) (l : List C9State) : List C9State :=
  if s ∈ l then l else s :: l

/-- One round of successor exploration. -/
def c9stepAll (l : List C9State) : List C9State :=
  l.foldl (fun acc s => (c9succs s).foldl (fun a x => c9insert x a) acc) l

/-- Iterated exploration. -/
def c9iter : Nat → List C9State → List C9State
  | 0, l => l
  | n + 1, l => c9iter n (c9stepAll l)

/-- The reachable state space (8 rounds exceed the diameter of the system;
closure is verified, not assumed, in `c9closed`). -/
def c9states : List C9State := c9iter 8 [c9init]

/-- Reachability under arbitrary interleaving of the two threads. -/
inductive C9Reach : C9State → Prop where
  | init : C9Reach c9init
  | step {s s2 : C9State} (t : Bool) : C9Reach s → c9step s t = some s2 → C9Reach s2

/-! ## Concrete instances used by witnesses and counterexamples -/

/-- A trivial registry entry, used to instantiate the abstract handlers in
witnesses. -/
def dummyRpc : RpcHandler :=
  ⟨Unit, Unit, fun _ => .ok (), fun _ => .ok (), fun _ => Json.null⟩

/-- All abstract handlers instantiated trivially. -/
def dummyHandlersEnv : HandlersEnv :=
  ⟨dummyRpc, dummyRpc, dummyRpc, dummyRpc, dummyRpc, dummyRpc, dummyRpc,
   dummyRpc, dummyRpc, dummyRpc, dummyRpc, dummyRpc, dummyRpc, dummyRpc,
   dummyRpc, dummyRpc, dummyRpc, dummyRpc, dummyRpc⟩

/-- The root subnet id `/root`. -/
def rootID : SubnetID := ⟨[['r', 'o', 'o', 't']]⟩

/-- The child subnet id `/root/A`. -/
def childID : SubnetID := ⟨[['r', 'o', 'o', 't'], ['A']]⟩

/-- A configuration entry for `/root`. -/
def rootEntry : Subnet := ⟨rootID, .fvm⟩

/-- An environment with an empty pool and configuration and trivially
succeeding capabilities. -/
def dummyEnv : Env :=
  { cache := []
    config := []
    check_subnet := fun _ => .ok ()
    parse_from := fun _ _ => .ok ⟨"default"⟩
    addressFromStr := fun s => .ok ⟨s⟩
    managerJoin := fun _ _ _ _ _ _ => .ok ()
    managerKill := fun _ _ _ => .ok () }

/-- An environment that knows `/root` in its configuration, succeeds on all
capabilities; used by success-path witnesses. -/
def okEnv : Env :=
  { dummyEnv with config := [(rootID, rootEntry)] }

/-- An environment that knows `/root` but whose `check_subnet` reports a
backend mismatch; used for the C7 ordering counterexample. -/
def mismatchEnv : Env :=
  { okEnv with check_subnet := fun _ => .error .subnetMismatch }

/-- List.lookup on an association list misses when the key is under none of
the stored keys. -/
theorem lookup_eq_none_of_not_mem_keys {α : Type u} (l : List (String × α))
    (k : String) (h : k ∉ l.map Prod.fst) : List.lookup k l = none := by
  induction l with
  | nil => rfl
  | cons p t ih =>
    simp only [List.map_cons, List.mem_cons, not_or] at h
    have hk : (k == p.1) = false := by
      cases hbe : k == p.1 with
      | false => rfl
      | true => exact absurd (by simpa using hbe) h.1
    simp [List.lookup, hk, ih h.2]

/-- C1: the specification states that `to_token_amount` fails for negative,
infinite or NaN input; the code (`f64_to_token_amount`, mod.rs 195-199) has
no error path at all. At failing input `-1.0` it returns
`Ok(TokenAmount::from_nano(0))` (the negative truncated product saturates
to 0 under `as u128`), NaN also yields 0, positive infinity yields
`u128::MAX` nano, and in general every f64 yields `Ok`. -/
theorem c1_conversion_never_fails :
    f64_to_token_amount (.finite (-1) 0) = .ok (TokenAmount.from_nano 0) ∧
    f64_to_token_amount .nan = .ok (TokenAmount.from_nano 0) ∧
    f64_to_token_amount (.inf false) =
      .ok (TokenAmount.from_nano (2 ^ 128 - 1)) ∧
    f64_to_token_amount (.inf true) = .ok (TokenAmount.from_nano 0) ∧
    ∀ f : F64, ∃ t : TokenAmount, f64_to_token_amount f = .ok t :=
  ⟨by decide, by decide, by decide, by decide, fun _ => ⟨_, rfl⟩⟩

/-- C2: dispatching any method name that is not a key of the registry built
by `Handlers::new` fails with the method-not-supported error, for every
payload (mod.rs 186-192). -/
theorem c2_unknown_method_not_supported (henv : HandlersEnv) (env : Env)
    (method : String) (params : Json)
    (h : method ∉ (Handlers.new henv env).map Prod.fst) :
    Handlers.handle (Handlers.new henv env) method params =
      .error .methodNotSupported := by
  have hnone : List.lookup method (Handlers.new henv env) = none :=
    lookup_eq_none_of_not_mem_keys _ _ h
  unfold Handlers.handle
  rw [hnone]

/-- C2 witness: `dispatch("nonexistent_method", null)` is rejected. -/
theorem c2_witness :
    Handlers.handle (Handlers.new dummyHandlersEnv dummyEnv)
      "nonexistent_method" Json.null = .error .methodNotSupported :=
  c2_unknown_method_not_supported dummyHandlersEnv dummyEnv
    "nonexistent_method" Json.null (by decide)

/-- C3: for every registered method, a payload its serde decode rejects
makes the dispatch fail with the invalid-params (decode) error, and the
typed handler is never invoked — the dispatch result is the same whatever
the `handle` function of the entry is (HandlerWrapper blanket impl, mod.rs
67-74). -/
theorem c3_decode_failure_invalid_params (henv : HandlersEnv) (env : Env)
    (method : String) (h : RpcHandler) (params : Json) (e : String)
    (hlook : List.lookup method (Handlers.new henv env) = some h)
    (hdec : h.decode params = .error e) :
    Handlers.handle (Handlers.new henv env) method params =
      .error (.invalidParams e) ∧
    ∀ g : h.Req → Except Err h.Resp,
      HandlerWrapper.handle { h with handle := g } params =
        .error (.invalidParams e) := by
  constructor
  · unfold Handlers.handle
    rw [hlook]
    unfold HandlerWrapper.handle
    simp only [hdec]
  · intro g
    unfold HandlerWrapper.handle
    simp only [hdec]

/-- C3 witness: `dispatch("join_subnet", "malformed")` (a string payload
where an object is required) fails with the invalid-params decode error. -/
theorem c3_witness :
    Handlers.handle (Handlers.new dummyHandlersEnv dummyEnv) JOIN_SUBNET
      (Json.str "malformed") =
      .error (.invalidParams "invalid type: expected a map") :=
  (c3_decode_failure_invalid_params dummyHandlersEnv dummyEnv JOIN_SUBNET
    (joinRpc dummyEnv) (Json.str "malformed") "invalid type: expected a map"
    rfl rfl).1

/-- C8: `Handlers::new` constructs a `WalletExportHandler` but never inserts
it (mod.rs 150-157), so the wallet_export method name is not a registry key
and dispatching it fails with method-not-supported for every payload and
every instantiation of the other handlers. -/
theorem c8_wallet_export_unreachable (henv : HandlersEnv) (env : Env)
    (params : Json) :
    WALLET_EXPORT ∉ (Handlers.new henv env).map Prod.fst ∧
    Handlers.handle (Handlers.new henv env) WALLET_EXPORT params =
      .error .methodNotSupported := by
  have hkeys : (Handlers.new henv env).map Prod.fst =
      [RELOAD_CONFIG, CREATE_SUBNET, LEAVE_SUBNET, KILL_SUBNET, JOIN_SUBNET,
       RPC_SUBNET, FUND, RELEASE, PROPAGATE, SEND_CROSS_MSG, SEND_VALUE,
       WALLET_NEW, WALLET_REMOVE, WALLET_IMPORT, WALLET_BALANCES,
       SET_VALIDATOR_NET_ADDR, LIST_CHILD_SUBNETS, LIST_BOTTOMUP_CHECKPOINTS,
       LAST_TOPDOWN_EXECUTED, QUERY_VALIDATOR_SET] := rfl
  have hmem : WALLET_EXPORT ∉ (Handlers.new henv env).map Prod.fst := by
    rw [hkeys]; decide
  have hnone : List.lookup WALLET_EXPORT (Handlers.new henv env) = none :=
    lookup_eq_none_of_not_mem_keys _ _ hmem
  refine ⟨hmem, ?_⟩
  unfold Handlers.handle
  rw [hnone]

/-- C4: a join_subnet or kill_subnet request whose subnet string parses to a
root subnet (parent() is None) fails with the no-parent-found error, with an
empty capability trace — in particular the connection pool is never
consulted (join.rs 43-44, kill.rs 38-39). -/
theorem c4_root_subnet_no_parent (env : Env) (jreq : JoinSubnetParams)
    (kreq : KillSubnetParams) (sidJ sidK : SubnetID)
    (hj : SubnetID.from_str jreq.subnet = .ok sidJ) (hpj : sidJ.parent = none)
    (hk : SubnetID.from_str kreq.subnet = .ok sidK) (hpk : sidK.parent = none) :
    joinHandle env jreq = (.error .noParentFound, []) ∧
    killHandle env kreq = (.error .noParentFound, []) := by
  unfold joinHandle killHandle
  simp only [hj, hpj, hk, hpk]
  exact ⟨trivial, trivial⟩

/-- C4 witness: `join_subnet` and `kill_subnet` for `/root`. -/
theorem c4_witness :
    joinHandle dummyEnv ⟨"/root", none, .finite 0 0, "net", none⟩ =
      (.error .noParentFound, []) ∧
    killHandle dummyEnv ⟨"/root", none⟩ = (.error .noParentFound, []) :=
  c4_root_subnet_no_parent dummyEnv ⟨"/root", none, .finite 0 0, "net", none⟩
    ⟨"/root", none⟩ rootID rootID (by decide) (by decide) (by decide) (by decide)

/-- C5: a join_subnet or kill_subnet request naming a non-root subnet whose
parent is neither cached nor present in the configuration snapshot — so
`pool.get(parent)` returns None — fails with the parent-subnet-not-found
error (join.rs 45-48, kill.rs 40-43); the handler is a total function, so
no input can crash it. -/
theorem c5_parent_not_in_config (env : Env) (jreq : JoinSubnetParams)
    (kreq : KillSubnetParams) (sidJ sidK parJ parK : SubnetID)
    (hj : SubnetID.from_str jreq.subnet = .ok sidJ)
    (hpj : sidJ.parent = some parJ)
    (hcj : List.lookup parJ env.cache = none)
    (hfj : List.lookup parJ env.config = none)
    (hk : SubnetID.from_str kreq.subnet = .ok sidK)
    (hpk : sidK.parent = some parK)
    (hck : List.lookup parK env.cache = none)
    (hfk : List.lookup parK env.config = none) :
    joinHandle env jreq = (.error .parentSubnetNotFound, [.poolGet parJ]) ∧
    killHandle env kreq = (.error .parentSubnetNotFound, [.poolGet parK]) := by
  unfold joinHandle killHandle poolGet
  simp only [hj, hpj, hcj, hfj, hk, hpk, hck, hfk]
  exact ⟨trivial, trivial⟩

/-- C5 witness: `join_subnet` and `kill_subnet` for `/root/A` against an
empty configuration. -/
theorem c5_witness :
    joinHandle dummyEnv ⟨"/root/A", none, .finite 0 0, "net", none⟩ =
      (.error .parentSubnetNotFound, [.poolGet rootID]) ∧
    killHandle dummyEnv ⟨"/root/A", none⟩ =
      (.error .parentSubnetNotFound, [.poolGet rootID]) :=
  c5_parent_not_in_config dummyEnv ⟨"/root/A", none, .finite 0 0, "net", none⟩
    ⟨"/root/A", none⟩ childID childID rootID rootID (by decide) (by decide)
    rfl rfl (by decide) (by decide) rfl rfl

/-- When the nonnegative integer part of a finite double fits below 2^128,
truncating and casting it to u128 returns exactly that integer part. -/
theorem castU128_trunc_of_intPartNat (x : F64) (q : Nat)
    (hq : intPartNat x = some q) (hfits : q < 2 ^ 128) :
    castU128 (F64.trunc x) = q := by
  cases x with
  | nan => simp [intPartNat] at hq
  | inf s => simp [intPartNat] at hq
  | finite m e =>
    have hq2 : (if 0 ≤ intPartI m e then some (intPartI m e).toNat else none) =
        some q := hq
    by_cases h0 : 0 ≤ intPartI m e
    · rw [if_pos h0] at hq2
      injection hq2 with hq3
      have hv : intPartI m e = (q : Int) := by
        rw [← hq3, Int.toNat_of_nonneg h0]
      have hip : intPartI (intPartI m e) 0 = intPartI m e := by
        unfold intPartI
        simp
      simp only [F64.trunc, castU128]
      rw [hip, hv]
      have h1 : ¬ ((q : Int) < 0) := not_lt.mpr (Int.natCast_nonneg q)
      have h2 : ¬ ((2 ^ 128 : Int) ≤ (q : Int)) := by
        exact_mod_cast not_le.mpr hfits
      rw [if_neg h1, if_neg h2]
      exact Int.toNat_natCast q
    · rw [if_neg h0] at hq2
      exact Option.noConfusion hq2

/-- C6 counterexample: at the finite nonnegative double `2^130`, the IEEE
product with `10^9` is exact — trunc(f * 10^9) is `10^9 * 2^130` — yet the
conversion returns `2^128 - 1` nano units, because the `as u128` cast
saturates; so the conversion does NOT return trunc(f * 10^9) for every
nonnegative finite input. -/
theorem c6_counterexample :
    f64_to_token_amount (.finite 1 130) =
      .ok (TokenAmount.from_nano (2 ^ 128 - 1)) ∧
    intPartNat (F64.mul (.finite 1 130) nanoScaleF64) =
      some (10 ^ 9 * 2 ^ 130) ∧
    (2 ^ 128 - 1 : Nat) ≠ 10 ^ 9 * 2 ^ 130 :=
  ⟨by decide, by decide, by decide⟩

/-- C6 as amended: for every nonnegative finite double `m * 2^e` whose IEEE
product with `10^9` has an integer part `q` that fits in u128, the
conversion returns exactly `q` nano units — truncation of the computed
product, never rounding; inputs whose product exceeds u128 saturate to
`2^128 - 1` nano units instead (see the counterexample). -/
theorem c6_truncation_within_u128 (m e : Int) (q : Nat) (_hm : 0 ≤ m)
    (hq : intPartNat (F64.mul (.finite m e) nanoScaleF64) = some q)
    (hfits : q < 2 ^ 128) :
    f64_to_token_amount (.finite m e) = .ok (TokenAmount.from_nano q) := by
  unfold f64_to_token_amount
  rw [castU128_trunc_of_intPartNat _ q hq hfits]

/-- C6 witness: the two examples quoted by the spec, now through the amended
theorem: `to_token_amount(1000000.1) == 1000000100000000` nano units and
`to_token_amount(0.0000000009) == 0`. -/
theorem c6_witness :
    f64_to_token_amount lit1000000p1 =
      .ok (TokenAmount.from_nano 1000000100000000) ∧
    f64_to_token_amount lit9em10 = .ok (TokenAmount.from_nano 0) := by
  have h1 : lit1000000p1 = .finite 8589935450993459 (-33) := by decide
  have h2 : lit9em10 = .finite 8704265901225330 (-83) := by decide
  constructor
  · rw [h1]
    exact c6_truncation_within_u128 8589935450993459 (-33) 1000000100000000
      (by decide) (by decide) (by decide)
  · rw [h2]
    exact c6_truncation_within_u128 8704265901225330 (-83) 0 (by decide)
      (by decide) (by decide)

/-- Whether this event is a collateral conversion. -/
def Ev.isConvert : Ev → Bool
  | .convertAmount _ => true
  | _ => false

/-- Whether this event is a check_subnet validation. -/
def Ev.isCheck : Ev → Bool
  | .checkSubnet _ => true
  | _ => false

/-- Some event satisfying `p` occurs strictly before some event satisfying
`q`. -/
def precedes (p q : Ev → Bool) : List Ev → Bool
  | [] => false
  | e :: es => (p e && es.any q) || precedes p q es

/-- The join request used by the C7 counterexample: its collateral `-1.0`
is an input the spec declares invalid, and the environment reports a
backend mismatch. -/
def c7req : JoinSubnetParams := ⟨"/root/A", none, .finite (-1) 0, "net", none⟩

/-- C7 counterexample: on a concrete request where both validations would
fail (negative collateral, mismatched backend), the trace of the join
handler runs the collateral conversion BEFORE check_subnet (join.rs lines
50 and 53), not after it as claimed: no check_subnet event precedes the
conversion event. -/
theorem c7_counterexample :
    joinHandle mismatchEnv c7req =
      (.error .subnetMismatch,
       [.poolGet rootID, .convertAmount (.finite (-1) 0),
        .checkSubnet rootEntry]) ∧
    precedes Ev.isCheck Ev.isConvert (joinHandle mismatchEnv c7req).2 = false ∧
    precedes Ev.isConvert Ev.isCheck (joinHandle mismatchEnv c7req).2 = true :=
  ⟨by decide, by decide, by decide⟩

/-- C7 as amended: for every join_subnet request that parses and finds its
parent connection, the handler converts the collateral BEFORE check_subnet
(the trace starts with the pool access followed by the conversion, and no
check_subnet event ever precedes the conversion); nevertheless, because the
conversion as implemented never fails, whenever check_subnet reports a
mismatch that mismatch error is the one returned, whatever the collateral
was. -/
theorem c7_convert_before_check (env : Env) (req : JoinSubnetParams)
    (sid parent : SubnetID) (conn : Connection)
    (hs : SubnetID.from_str req.subnet = .ok sid)
    (hp : sid.parent = some parent)
    (hg : poolGet env.cache env.config parent = some conn) :
    (∃ rest, (joinHandle env req).2 =
        .poolGet parent :: .convertAmount req.collateral :: rest) ∧
    precedes Ev.isCheck Ev.isConvert (joinHandle env req).2 = false ∧
    ∀ er, env.check_subnet conn.subnet = .error er →
      joinHandle env req =
        (.error er,
         [.poolGet parent, .convertAmount req.collateral,
          .checkSubnet conn.subnet]) := by
  unfold joinHandle
  simp only [hs, hp, hg, f64_to_token_amount]
  refine ⟨?_, ?_, ?_⟩
  · repeat' split
    all_goals exact ⟨_, rfl⟩
  · repeat' split
    all_goals rfl
  · intro er hctr
    simp only [hctr]

/-- C7 witness: the amended ordering and error propagation at a concrete
mismatching environment. -/
theorem c7_witness :
    joinHandle mismatchEnv ⟨"/root/A", none, .finite 1 0, "net", none⟩ =
      (.error .subnetMismatch,
       [.poolGet rootID, .convertAmount (.finite 1 0),
        .checkSubnet rootEntry]) :=
  (c7_convert_before_check mismatchEnv
    ⟨"/root/A", none, .finite 1 0, "net", none⟩ childID rootID ⟨rootEntry⟩
    (by decide) (by decide) (by decide)).2.2 .subnetMismatch rfl

/-- The computed state set is closed under successors: this, not the way the
set was computed, is what the reachability argument relies on. -/
theorem c9closed : ∀ s ∈ c9states, ∀ x ∈ c9succs s, x ∈ c9states := by decide

/-- Every reachable state lies in the computed closed set. -/
theorem c9reach_mem {s : C9State} (h : C9Reach s) : s ∈ c9states := by
  induction h with
  | init => decide
  | @step s s2 t hr hstep ih =>
    refine c9closed s ih s2 ?_
    cases t
    · simp [c9succs, hstep]
    · simp [c9succs, hstep]

/-- C9: in the spec-mandated single-flight pool (mutual exclusion scoped to
the construction path, with a re-check after acquiring the guard), every
interleaving of two first-time `get` calls for the same unseen key that
runs both to completion performs the construction exactly once, and both
callers observe the same cached connection instance. -/
theorem c9_single_construction (s : C9State) (h : C9Reach s)
    (h0 : s.pc0 = .finished) (h1 : s.pc1 = .finished) :
    s.built = 1 ∧ s.res0 = s.res1 ∧ s.res0 = s.cache ∧ s.cache = some 0 := by
  have hall : ∀ x ∈ c9states, x.pc0 = C9PC.finished → x.pc1 = C9PC.finished →
      x.built = 1 ∧ x.res0 = x.res1 ∧ x.res0 = x.cache ∧ x.cache = some 0 := by
    decide
  exact hall s (c9reach_mem h) h0 h1

/-- C9 witness: one complete interleaving (thread 0 runs to completion,
then thread 1 hits the cache on its fast path) reaches a final state with
a single construction and both results the same instance. -/
theorem c9_witness :
    (⟨none, some 0, 1, .finished, .finished, some 0, some 0⟩ : C9State).built
        = 1 ∧
    (⟨none, some 0, 1, .finished, .finished, some 0, some 0⟩ : C9State).res0 =
      (⟨none, some 0, 1, .finished, .finished, some 0, some 0⟩ : C9State).res1 ∧
    (⟨none, some 0, 1, .finished, .finished, some 0, some 0⟩ : C9State).res0 =
      (⟨none, some 0, 1, .finished, .finished, some 0, some 0⟩ : C9State).cache ∧
    (⟨none, some 0, 1, .finished, .finished, some 0, some 0⟩ : C9State).cache =
      some 0 := by
  have r1 : C9Reach ⟨none, none, 0, .wantLock, .start, none, none⟩ :=
    C9Reach.step false C9Reach.init (by decide)
  have r2 : C9Reach ⟨some false, none, 0, .locked, .start, none, none⟩ :=
    C9Reach.step false r1 (by decide)
  have r3 : C9Reach ⟨none, some 0, 1, .finished, .start, some 0, none⟩ :=
    C9Reach.step false r2 (by decide)
  have r4 : C9Reach ⟨none, some 0, 1, .finished, .finished, some 0, some 0⟩ :=
    C9Reach.step true r3 (by decide)
  exact c9_single_construction _ r4 rfl rfl

/-- C10: once a join_subnet request has resolved its parent connection,
passed check_subnet and resolved the `from` address, the worker address
passed to `SubnetManager::join_subnet` is the resolved `from` address when
`worker_addr` is absent; when `worker_addr` is present it is parsed with
`Address::from_str`, a parse failure fails the call (and the manager is
never invoked), and a parse success passes the parsed address (join.rs
55-62). -/
theorem c10_worker_addr_resolution (env : Env) (req : JoinSubnetParams)
    (sid parent : SubnetID) (conn : Connection) (fromAddr : Address)
    (hs : SubnetID.from_str req.subnet = .ok sid)
    (hp : sid.parent = some parent)
    (hg : poolGet env.cache env.config parent = some conn)
    (hc : env.check_subnet conn.subnet = .ok ())
    (hf : env.parse_from conn.subnet req.«from» = .ok fromAddr) :
    (req.worker_addr = none →
      joinHandle env req =
        (env.managerJoin conn sid fromAddr (tokenOf req.collateral)
           req.validator_net_addr fromAddr,
         [.poolGet parent, .convertAmount req.collateral,
          .checkSubnet conn.subnet,
          .managerJoin sid fromAddr (tokenOf req.collateral)
            req.validator_net_addr fromAddr])) ∧
    (∀ s er, req.worker_addr = some s → env.addressFromStr s = .error er →
      joinHandle env req =
        (.error er,
         [.poolGet parent, .convertAmount req.collateral,
          .checkSubnet conn.subnet])) ∧
    (∀ s w, req.worker_addr = some s → env.addressFromStr s = .ok w →
      joinHandle env req =
        (env.managerJoin conn sid fromAddr (tokenOf req.collateral)
           req.validator_net_addr w,
         [.poolGet parent, .convertAmount req.collateral,
          .checkSubnet conn.subnet,
          .managerJoin sid fromAddr (tokenOf req.collateral)
            req.validator_net_addr w])) := by
  unfold joinHandle
  simp only [hs, hp, hg, f64_to_token_amount, hc, hf]
  refine ⟨?_, ?_, ?_⟩
  · intro hw
    simp only [hw]
    rfl
  · intro s er hw haf
    simp only [hw, haf]
  · intro s w hw haf
    simp only [hw, haf]
    try rfl

/-- C10 witness: a request without `worker_addr` reaches the manager with
the worker equal to the resolved from address. -/
theorem c10_witness :
    joinHandle okEnv ⟨"/root/A", none, .finite 1 0, "net", none⟩ =
      (.ok (),
       [.poolGet rootID, .convertAmount (.finite 1 0), .checkSubnet rootEntry,
        .managerJoin childID ⟨"default"⟩ (tokenOf (.finite 1 0)) "net"
          ⟨"default"⟩]) :=
  (c10_worker_addr_resolution okEnv ⟨"/root/A", none, .finite 1 0, "net", none⟩
    childID rootID ⟨rootEntry⟩ ⟨"default"⟩ (by decide) (by decide) (by decide)
    rfl rfl).1 rfl

end IpcAgent
